import Mathlib

/-!
Verification of the multi-source bibliographic metadata aggregation engine
(`libapp/services/meta_search_service.py`) against its natural-language
specification.

Shallow embedding conventions:
* Python `float` values (confidence, response times, quality scores) are
  modelled as `Rat`; the score arithmetic involves only additions and
  multiplications of small decimal constants, for which the rational and
  floating semantics of the claims coincide structurally.
* Python `str | None` fields are `Option String`; Python truthiness on such
  fields (`if self.isbn:` is false for both `None` and `""`) is `truthy`.
* Code that may raise is embedded in `Except String`; a `try/except` block
  is embedded by pattern matching on the `Except` value at the same point
  where the Python handler sits.  Mutable accumulation interleaved with
  exception handling (a `results` list surviving a caught mid-loop
  exception) is embedded as a pair `List _ × Option String` carrying the
  results appended so far together with the pending exception, mirroring
  the observable Python state at the `except` site.
* Wall-clock measurements (`time.time()` deltas) are abstracted to the
  constant 0 seconds; thread scheduling in the parallel strategy is
  abstracted to the deterministic completion of every submitted task
  (the timeout branch is real time, outside the embedding).  The cache
  clock is kept explicit (a `Rat` number of hours) because TTL behaviour
  is claimed.
-/

namespace Aurora

/-! ### String normalisation helpers (ASCII fragment of Python `str`/`re`) -/

/-- Python truthiness of a `str | None` value: `None` and `""` are falsy. -/
def truthy : Option String → Bool
  | none => false
  | some s => !(s == "")

/-- Python `str.lower()` on one character (ASCII fragment). -/
def pyLowerChar (c : Char) : Char :=
  if 'A' ≤ c ∧ c ≤ 'Z' then Char.ofNat (c.toNat + 32) else c

/-- Python `str.lower()` (ASCII fragment). -/
def pyLower (s : String) : String :=
  ⟨s.toList.map pyLowerChar⟩

/-- Python `str.strip()`: remove leading and trailing whitespace. -/
def pyStrip (s : String) : String :=
  ⟨((s.toList.dropWhile Char.isWhitespace).reverse.dropWhile
      Char.isWhitespace).reverse⟩

/-- Python `str.replace(needle, "")` for a one-character needle: remove
every occurrence of the character. -/
def removeChar (c : Char) (s : String) : String :=
  ⟨s.toList.filter (fun d => !(d == c))⟩

/-- Python `s.split("-")[0]`: the prefix before the first dash (the whole
string when it has no dash). -/
def beforeFirstDash (s : String) : String :=
  ⟨s.toList.takeWhile (fun d => !(d == '-'))⟩

/-- Python `" ".join(parts)`. -/
def joinWithSpace : List String → String
  | [] => ""
  | [x] => x
  | x :: y :: xs => x ++ " " ++ joinWithSpace (y :: xs)

/-- Characters kept by `re.sub(r"[^\w\s]", "", ·)`: word characters and
whitespace (ASCII fragment). -/
def isWordOrSpace (c : Char) : Bool :=
  c.isAlphanum || c == '_' || c.isWhitespace

/-- Drop every character that is neither a word character nor whitespace. -/
def stripPunct (s : String) : String :=
  ⟨s.toList.filter isWordOrSpace⟩

/-- One pass of `re.sub(r"\s+", " ", ·)`: each run of whitespace becomes a
single space.  The boolean records whether the previous character was
whitespace. -/
def collapseWsAux : Bool → List Char → List Char
  | _, [] => []
  | prevWs, c :: rest =>
    if c.isWhitespace then
      if prevWs then collapseWsAux true rest
      else ' ' :: collapseWsAux true rest
    else c :: collapseWsAux false rest

def collapseWs (s : String) : String :=
  ⟨collapseWsAux false s.toList⟩

/-- Python `str.split()` (split on whitespace runs, no empty items). -/
def splitWsAux : List Char → List Char → List String
  | acc, [] => if acc.isEmpty then [] else [⟨acc.reverse⟩]
  | acc, c :: rest =>
    if c.isWhitespace then
      if acc.isEmpty then splitWsAux [] rest
      else ⟨acc.reverse⟩ :: splitWsAux [] rest
    else splitWsAux (c :: acc) rest

def splitWs (s : String) : List String :=
  splitWsAux [] s.toList

/-! ### Data model (`SearchSourceInfo`, `UnifiedBookResult`) -/

/-- `SearchSourceInfo`: metadata about the producing source. -/
structure SearchSourceInfo where
  name : String
  confidence : Rat
  response_time : Rat
  success : Bool := true
deriving Repr, DecidableEq

/-- `UnifiedBookResult`: the unified record shape.  The Python field
`_score` (set by `__post_init__`) is `score`; the opaque diagnostic
payload `raw_data` is not modelled (no claim reads it, and it is only
ever written). -/
structure UnifiedBookResult where
  title : String
  source : SearchSourceInfo
  subtitle : Option String := none
  authors : List String := []
  main_author : Option String := none
  isbn : Option String := none
  year : Option String := none
  publisher : Option String := none
  collection : Option String := none
  description : Option String := none
  summary : Option String := none
  thumbnail_url : Option String := none
  cover_image_url : Option String := none
  score : Rat := 0
deriving Repr, DecidableEq

instance : Inhabited UnifiedBookResult :=
  ⟨{ title := "", source := { name := "", confidence := 0, response_time := 0 } }⟩

instance : DecidableEq (Except String UnifiedBookResult) := fun a b =>
  match a, b with
  | .ok x, .ok y =>
    if h : x = y then .isTrue (by rw [h])
    else .isFalse (fun hh => h (by cases hh; rfl))
  | .error x, .error y =>
    if h : x = y then .isTrue (by rw [h])
    else .isFalse (fun hh => h (by cases hh; rfl))
  | .ok _, .error _ => .isFalse (fun hh => by cases hh)
  | .error _, .ok _ => .isFalse (fun hh => by cases hh)

/-- The `source_scores` dictionary lookup with default `0.5`. -/
def sourceScores (name : String) : Rat :=
  if name == "BnF" then 1
  else if name == "Google Books" then 8/10
  else if name == "OpenLibrary" then 6/10
  else 5/10

/-- `UnifiedBookResult._calculate_quality_score`, line for line. -/
def calculateQualityScore (r : UnifiedBookResult) : Rat :=
  let score : Rat := 0
  let score := score + sourceScores r.source.name * 30
  let fieldsBonus : Rat :=
    10
    + (if !r.authors.isEmpty then 8 else 0)
    + (if truthy r.main_author then 5 else 0)
    + (if truthy r.isbn then 8 else 0)
    + (if truthy r.year then 5 else 0)
    + (if truthy r.publisher then 4 else 0)
    + (if truthy r.description then 6 else 0)
    + (if truthy r.summary then 4 else 0)
    + (if truthy r.thumbnail_url then 3 else 0)
  let score := score + fieldsBonus
  let score := if r.source.response_time > 5 then score - 5 else score
  let score := score + r.source.confidence * 10
  min 100 (max 0 score)

/-- `__post_init__`: the score is computed once at construction. -/
def UnifiedBookResult.withScore (r : UnifiedBookResult) : UnifiedBookResult :=
  { r with score := calculateQualityScore r }

/-! ### Quality score as worded by the specification (claim C2).

This second definition follows the words of the claim, to be compared
with the code-derived `calculateQualityScore`. -/

/-- Trust weight as the claim words it: NationalLibrary/BnF 1.0,
CommercialCatalog/Google Books 0.8, CommunityCatalog/OpenLibrary 0.6. -/
def specTrustWeight (name : String) : Rat :=
  if name == "BnF" then 1
  else if name == "Google Books" then 8/10
  else if name == "OpenLibrary" then 6/10
  else 0

/-- The claimed formula: trust weight times 30, plus fixed field bonuses,
minus 5 when response time exceeds 5.0 s, plus confidence times 10,
clamped to the interval from 0 to 100. -/
def specQualityScore (r : UnifiedBookResult) : Rat :=
  let base := specTrustWeight r.source.name * 30
  let bonuses : Rat :=
    10
    + (if !r.authors.isEmpty then 8 else 0)
    + (if truthy r.main_author then 5 else 0)
    + (if truthy r.isbn then 8 else 0)
    + (if truthy r.year then 5 else 0)
    + (if truthy r.publisher then 4 else 0)
    + (if truthy r.description then 6 else 0)
    + (if truthy r.summary then 4 else 0)
    + (if truthy r.thumbnail_url then 3 else 0)
  let penalty : Rat := if r.source.response_time > 5 then 5 else 0
  min 100 (max 0 (base + bonuses - penalty + r.source.confidence * 10))

/-! ### Raw per-source record shapes -/

/-- `BnfBook` (bnf_service.py). -/
structure BnfBook where
  titre : String
  sous_titre : Option String
  auteurs : List String
  isbn : Option String
  editeur : Option String
  date_publication : Option String
  collection : Option String
deriving Repr, DecidableEq

/-- `ExtBook` (openlibrary_service.py). -/
structure ExtBook where
  titre : String
  sous_titre : Option String
  auteurs : List String
  isbn : Option String
  editeur : Option String
  date_publication : Option String
  collection : Option String
deriving Repr, DecidableEq

/-- A Google Books `volumeInfo` JSON object, restricted to the keys the
code reads.  `none` means the key is absent; `industryIdentifiers`
entries are (`type`, `identifier`) pairs; `thumbnail` stands for
`imageLinks.thumbnail`. -/
structure GoogleVolumeInfo where
  title : Option String := none
  subtitle : Option String := none
  authors : Option (List String) := none
  industryIdentifiers : Option (List (Option String × Option String)) := none
  publishedDate : Option String := none
  publisher : Option String := none
  description : Option String := none
  thumbnail : Option String := none
deriving Repr, DecidableEq

/-- `BookDTO` (types.py), a `slots` dataclass.  Note: it has *no*
`authors_text` and no `description` attribute; accessing them raises
`AttributeError`. -/
structure BookDTO where
  id : Option Int
  isbn : String
  title : String
  author : String
  publisher : Option String := none
  year : Option Int := none
  category : String := "apprenti"
  copies_total : Nat := 1
  copies_available : Nat := 1
deriving Repr, DecidableEq

/-! ### `SearchResultAdapter` (the Normalizer) -/

/-- `SearchResultAdapter.from_bnf_book`.  Total; the title is copied
verbatim, with no usable-title check. -/
def fromBnfBook (b : BnfBook) (si : SearchSourceInfo) : UnifiedBookResult :=
  UnifiedBookResult.withScore
    { title := b.titre
      subtitle := b.sous_titre
      authors := b.auteurs
      main_author := b.auteurs.head?
      isbn := b.isbn
      year := b.date_publication
      publisher := b.editeur
      collection := b.collection
      source := si }

/-- `SearchResultAdapter.from_ext_book`.  Total.  The Python
`str(x) if x else None` on the publication date keeps a truthy string
and maps `None`/`""` to `None`. -/
def fromExtBook (b : ExtBook) (si : SearchSourceInfo) : UnifiedBookResult :=
  UnifiedBookResult.withScore
    { title := b.titre
      source := si
      subtitle := b.sous_titre
      authors := b.auteurs
      main_author := b.auteurs.head?
      isbn := b.isbn
      year := if truthy b.date_publication then b.date_publication else none
      publisher := b.editeur
      collection := b.collection }

/-- The ISBN extraction loop of `from_google_books`: first identifier
whose `type` is `ISBN_13` or `ISBN_10` (its `identifier` value, which may
itself be absent). -/
def extractGoogleIsbn (ids : Option (List (Option String × Option String))) :
    Option String :=
  match ids with
  | none => none
  | some l =>
    match l.find? (fun p => p.1 == some "ISBN_13" || p.1 == some "ISBN_10") with
    | none => none
    | some p => p.2

/-- `SearchResultAdapter.from_google_books`.  A missing title becomes the
placeholder `"Titre inconnu"`.  `volume_info.get("authors", [None])[0]`
raises `IndexError` when the `authors` key is present but the list is
empty; that raising path is the `Except.error` case. -/
def fromGoogleBooks (gv : GoogleVolumeInfo) (si : SearchSourceInfo) :
    Except String UnifiedBookResult := do
  let isbn := extractGoogleIsbn gv.industryIdentifiers
  let mainAuthor ← match gv.authors with
    | none => pure (none : Option String)
    | some [] => throw "IndexError: list index out of range"
    | some (a :: _) => pure (some a)
  pure <| UnifiedBookResult.withScore
    { title := gv.title.getD "Titre inconnu"
      subtitle := gv.subtitle
      authors := gv.authors.getD []
      main_author := mainAuthor
      isbn := isbn
      year :=
        match gv.publishedDate with
        | none => none
        | some s => if s == "" then none else some (beforeFirstDash s)
      publisher := gv.publisher
      description := gv.description
      thumbnail_url := gv.thumbnail
      source := si }

/-! ### `BestResultStrategy`: deduplication and merge -/

/-- `BestResultStrategy._normalize_for_deduplication`.  The title is
lowercased, stripped, punctuation-stripped and whitespace-collapsed; the
author is lowercased, stripped and reordered surname-first when it has
several words; `None`/empty authors give the empty string. -/
def normalizeForDeduplication (title author : String) : String :=
  let titleNorm := collapseWs (stripPunct (pyStrip (pyLower title)))
  let authorNorm := if author == "" then "" else pyStrip (pyLower author)
  let authorNorm :=
    if authorNorm == "" then authorNorm
    else
      let parts := splitWs authorNorm
      if parts.length > 1 then
        (parts.getLastD "") ++ " " ++ joinWithSpace parts.dropLast
      else authorNorm
  titleNorm ++ "|" ++ authorNorm

/-- The grouping key used by `_deduplicate_results`
(`result.main_author or ""` maps `None` to `""`). -/
def dedupKey (r : UnifiedBookResult) : String :=
  normalizeForDeduplication r.title (r.main_author.getD "")

/-- Grouping by dedup key; a Python dict preserves insertion order, so
groups appear in first-occurrence order and members in arrival order. -/
def groupByKey (results : List UnifiedBookResult) :
    List (String × List UnifiedBookResult) :=
  results.foldl
    (fun gs r =>
      let k := dedupKey r
      if gs.any (fun g => g.1 == k) then
        gs.map (fun g => if g.1 == k then (g.1, g.2 ++ [r]) else g)
      else gs ++ [(k, [r])])
    []

/-- Python `max(group_results, key=lambda r: r.score)` returns the first
element of maximal score; this computes its index. -/
def maxIdxByScore (l : List UnifiedBookResult) : Nat :=
  (l.enum.foldl
    (fun acc p => if p.2.score > acc.2 then (p.1, p.2.score) else acc)
    (0, (l.headD default).score)).1

/-! One Python statement of the `_merge_results` loop body each:
`if not merged.f and result.f: merged.f = result.f`. -/

def backfillSubtitle (m r : UnifiedBookResult) : UnifiedBookResult :=
  if !truthy m.subtitle && truthy r.subtitle then
    { m with subtitle := r.subtitle } else m

def backfillDescription (m r : UnifiedBookResult) : UnifiedBookResult :=
  if !truthy m.description && truthy r.description then
    { m with description := r.description } else m

def backfillSummary (m r : UnifiedBookResult) : UnifiedBookResult :=
  if !truthy m.summary && truthy r.summary then
    { m with summary := r.summary } else m

def backfillThumbnail (m r : UnifiedBookResult) : UnifiedBookResult :=
  if !truthy m.thumbnail_url && truthy r.thumbnail_url then
    { m with thumbnail_url := r.thumbnail_url } else m

def backfillCoverImage (m r : UnifiedBookResult) : UnifiedBookResult :=
  if !truthy m.cover_image_url && truthy r.cover_image_url then
    { m with cover_image_url := r.cover_image_url } else m

def backfillPublisher (m r : UnifiedBookResult) : UnifiedBookResult :=
  if !truthy m.publisher && truthy r.publisher then
    { m with publisher := r.publisher } else m

def backfillCollection (m r : UnifiedBookResult) : UnifiedBookResult :=
  if !truthy m.collection && truthy r.collection then
    { m with collection := r.collection } else m

/-- One sibling step of `_merge_results`: backfill the listed fields that
are empty on the accumulator and non-empty on the sibling (in source
order), then union the author lists with a case-sensitive membership
test. -/
def mergeFields (m r : UnifiedBookResult) : UnifiedBookResult :=
  let m7 := backfillCollection (backfillPublisher (backfillCoverImage
    (backfillThumbnail (backfillSummary (backfillDescription
      (backfillSubtitle m r) r) r) r) r) r) r
  { m7 with authors :=
      (r.authors.foldl
        (fun acc a => if acc.contains a then acc else acc ++ [a]) m7.authors) }

/-- The author-union fold of `_merge_results`, on its own for claim C8. -/
def mergeAuthors (xs ys : List String) : List String :=
  ys.foldl (fun acc a => if acc.contains a then acc else acc ++ [a]) xs

/-- `BestResultStrategy._merge_results`, on the group's member values with
the representative given by its index in the group.  `merged = best`
aliases the representative, which Python then mutates in place, so when
the loop reaches the representative's own position the comparison
`result == best` sees the current accumulator (hence the `i == bestIdx`
case); any other sibling is skipped exactly when it is structurally equal
to the current accumulator (dataclass `==`).  The score is recomputed at
the end (`merged._score = merged._calculate_quality_score()`). -/
def mergeStep (bestIdx : Nat) (m : UnifiedBookResult)
    (p : Nat × UnifiedBookResult) : UnifiedBookResult :=
  let r := if p.1 == bestIdx then m else p.2
  if r == m then m else mergeFields m r

/-- `_merge_results` proper: fold the loop over the group, then recompute
the score (`merged._score = merged._calculate_quality_score()`). -/
def mergeResultsAt (group : List UnifiedBookResult) (bestIdx : Nat) :
    UnifiedBookResult :=
  let best := group.getD bestIdx default
  let merged := group.enum.foldl (mergeStep bestIdx) best
  { merged with score := calculateQualityScore merged }

/-- `BestResultStrategy._deduplicate_results`: group by key, pick the
first highest-scoring member of each group, merge the group into it.  The
output is in group first-occurrence order; no sorting happens here. -/
def deduplicateResults (results : List UnifiedBookResult) :
    List UnifiedBookResult :=
  if results.isEmpty then results
  else (groupByKey results).map (fun g => mergeResultsAt g.2 (maxIdxByScore g.2))

/-! ### The facade's sort

`results.sort(key=lambda r: r.score, reverse=True)` is a stable
descending sort by score, embedded as a stable insertion sort (an element
is inserted before the first strictly smaller score). -/

def insertDesc (r : UnifiedBookResult) :
    List UnifiedBookResult → List UnifiedBookResult
  | [] => [r]
  | x :: xs => if x.score < r.score then r :: x :: xs else x :: insertDesc r xs

def sortDesc (l : List UnifiedBookResult) : List UnifiedBookResult :=
  l.foldr insertDesc []

/-- Sorted descending by quality score. -/
def SortedD (l : List UnifiedBookResult) : Prop :=
  l.Pairwise (fun a b => b.score ≤ a.score)

/-! ### Adapter behaviours

The strategies receive a duck-typed `services` dict.  Each entry, when
present, is modelled by the response its methods give to the one query of
the call: raising (`Except.error`), returning `None`, or returning a
value of the method's shape.  `.ok none` stands for Python `None`; where
the strategy then iterates over the value, iterating `None` raises a
`TypeError` at that point. -/

structure BnfBehaviour where
  byIsbn : Except String (Option (List BnfBook))
  byTitleAuthor : Except String (Option (List BnfBook))

structure OpenLibraryBehaviour where
  byIsbn : Except String (Option ExtBook)
  byTitle : Except String (Option (List ExtBook))

structure GoogleBehaviour where
  seqByIsbn : Except String (Option (List GoogleVolumeInfo))
  byTitleAuthor : Except String (Option (List GoogleVolumeInfo))
  byIsbnDto : Except String (Option BookDTO)

structure Services where
  bnf : Option BnfBehaviour
  openlibrary : Option OpenLibraryBehaviour
  google : Option GoogleBehaviour

/-! Per-call `SearchSourceInfo` constants.  The measured
`time.time() - start_time` response times are abstracted to 0 seconds;
the confidence constants are the literals of the corresponding branch. -/

def siBnfIsbnSeq : SearchSourceInfo := ⟨"BnF", 95/100, 0, true⟩
def siOLIsbnSeq : SearchSourceInfo := ⟨"OpenLibrary", 75/100, 0, true⟩
def siGoogleIsbnSeq : SearchSourceInfo := ⟨"Google Books", 85/100, 0, true⟩
def siBnfTASeq : SearchSourceInfo := ⟨"BnF", 90/100, 0, true⟩
def siOLTASeq : SearchSourceInfo := ⟨"OpenLibrary", 70/100, 0, true⟩
def siGoogleTASeq : SearchSourceInfo := ⟨"Google Books", 80/100, 0, true⟩
def siBnfIsbnPar : SearchSourceInfo := ⟨"BnF", 95/100, 0, true⟩
def siOLIsbnPar : SearchSourceInfo := ⟨"OpenLibrary", 75/100, 0, true⟩
def siGoogleIsbnPar : SearchSourceInfo := ⟨"Google Books", 80/100, 0, true⟩

/-- The `for book in google_books: results.append(from_google_books(...))`
loop: conversions are appended one by one and a conversion exception
stops the loop, keeping the books appended so far (the Python `results`
list survives into the `except` handler). -/
def convertGoogleList (books : List GoogleVolumeInfo) (si : SearchSourceInfo) :
    List UnifiedBookResult × Option String :=
  books.foldl
    (fun acc b =>
      match acc.2 with
      | some _ => acc
      | none =>
        match fromGoogleBooks b si with
        | .ok r => (acc.1 ++ [r], none)
        | .error e => (acc.1, some e))
    ([], none)

/-! ### `SequentialSearchStrategy`

Each source's `try` block is a step `List _ → List _ × Option String`
taking and returning the shared `results` list, with the pending
exception (if the block raised).  The driver is the loop: an absent
service is skipped before the `try` (no break check), a caught exception
falls through to the next source, and a completed block breaks when
`results` is non-empty. -/

def runSeq :
    List (Option (List UnifiedBookResult →
      List UnifiedBookResult × Option String)) →
    List UnifiedBookResult → List UnifiedBookResult
  | [], acc => acc
  | none :: rest, acc => runSeq rest acc
  | some f :: rest, acc =>
    let step := f acc
    match step.2 with
    | some _ => runSeq rest step.1
    | none => if step.1.isEmpty then runSeq rest step.1 else step.1

def bnfIsbnStep (b : BnfBehaviour) (acc : List UnifiedBookResult) :
    List UnifiedBookResult × Option String :=
  match b.byIsbn with
  | .error e => (acc, some e)
  | .ok none => (acc, some "TypeError: NoneType object is not iterable")
  | .ok (some books) => (acc ++ books.map (fromBnfBook · siBnfIsbnSeq), none)

def googleIsbnSeqStep (g : GoogleBehaviour) (acc : List UnifiedBookResult) :
    List UnifiedBookResult × Option String :=
  match g.seqByIsbn with
  | .error e => (acc, some e)
  | .ok none => (acc, some "TypeError: NoneType object is not iterable")
  | .ok (some books) =>
    let conv := convertGoogleList books siGoogleIsbnSeq
    (acc ++ conv.1, conv.2)

def olIsbnStep (o : OpenLibraryBehaviour) (acc : List UnifiedBookResult) :
    List UnifiedBookResult × Option String :=
  match o.byIsbn with
  | .error e => (acc, some e)
  | .ok none => (acc, none)
  | .ok (some eb) => (acc ++ [fromExtBook eb siOLIsbnSeq], none)

/-- `SequentialSearchStrategy.search_by_isbn`: priority order BnF,
Google Books, OpenLibrary. -/
def seqSearchByIsbn (sv : Services) : List UnifiedBookResult :=
  runSeq
    [sv.bnf.map bnfIsbnStep, sv.google.map googleIsbnSeqStep,
     sv.openlibrary.map olIsbnStep] []

def bnfTAStep (b : BnfBehaviour) (acc : List UnifiedBookResult) :
    List UnifiedBookResult × Option String :=
  match b.byTitleAuthor with
  | .error e => (acc, some e)
  | .ok none => (acc, some "TypeError: NoneType object is not iterable")
  | .ok (some books) => (acc ++ books.map (fromBnfBook · siBnfTASeq), none)

def olTAStep (o : OpenLibraryBehaviour) (acc : List UnifiedBookResult) :
    List UnifiedBookResult × Option String :=
  match o.byTitle with
  | .error e => (acc, some e)
  | .ok none => (acc, some "TypeError: NoneType object is not iterable")
  | .ok (some books) => (acc ++ books.map (fromExtBook · siOLTASeq), none)

def googleTAStep (g : GoogleBehaviour) (acc : List UnifiedBookResult) :
    List UnifiedBookResult × Option String :=
  match g.byTitleAuthor with
  | .error e => (acc, some e)
  | .ok none => (acc, some "TypeError: NoneType object is not iterable")
  | .ok (some books) =>
    let conv := convertGoogleList books siGoogleTASeq
    (acc ++ conv.1, conv.2)

/-- `SequentialSearchStrategy.search_by_title_author`: priority order
BnF, OpenLibrary, Google Books. -/
def seqSearchByTitleAuthor (sv : Services) : List UnifiedBookResult :=
  runSeq
    [sv.bnf.map bnfTAStep, sv.openlibrary.map olTAStep,
     sv.google.map googleTAStep] []

/-! ### `MetaSearchService` facade over the sequential strategy -/

def lookupAssoc {α : Type} (xs : List (String × α)) (k : String) : Option α :=
  (xs.find? (fun p => p.1 == k)).map (·.2)

def setAssoc {α : Type} (xs : List (String × α)) (k : String) (v : α) :
    List (String × α) :=
  xs.filter (fun p => !(p.1 == k)) ++ [(k, v)]

/-- `isbn.strip().replace("-", "").replace(" ", "")`. -/
def cleanIsbn (isbn : String) : String :=
  removeChar ' ' (removeChar '-' (pyStrip isbn))

structure SeqFacadeState where
  isbnCache : List (String × List UnifiedBookResult) := []
  titleCache : List (String × List UnifiedBookResult) := []
deriving Repr, DecidableEq

/-- `MetaSearchService.search_by_isbn` with the default
`SequentialSearchStrategy`: input validation, facade-cache lookup,
strategy call, in-place sort by descending score, unconditional cache
write when `use_cache`. -/
def facadeSeqSearchByIsbn (isbn : String) (useCache : Bool) (sv : Services)
    (st : SeqFacadeState) : List UnifiedBookResult × SeqFacadeState :=
  if pyStrip isbn == "" then ([], st)
  else
    let clean := cleanIsbn isbn
    match (if useCache then lookupAssoc st.isbnCache clean else none) with
    | some rs => (rs, st)
    | none =>
      let results := sortDesc (seqSearchByIsbn sv)
      let st2 := if useCache then
        { st with isbnCache := setAssoc st.isbnCache clean results } else st
      (results, st2)

/-- `MetaSearchService.search_by_title_author` with the sequential
strategy. -/
def facadeSeqSearchByTitleAuthor (title author : String) (useCache : Bool)
    (sv : Services) (st : SeqFacadeState) :
    List UnifiedBookResult × SeqFacadeState :=
  if pyStrip title == "" then ([], st)
  else
    let key := pyLower (pyStrip title) ++ ":" ++ pyLower (pyStrip author)
    match (if useCache then lookupAssoc st.titleCache key else none) with
    | some rs => (rs, st)
    | none =>
      let results := sortDesc (seqSearchByTitleAuthor sv)
      let st2 := if useCache then
        { st with titleCache := setAssoc st.titleCache key results } else st
      (results, st2)

/-- Invariant of the sequential facade state: every cached result list is
sorted descending by score (the facade only stores sorted lists). -/
def SortedCaches (st : SeqFacadeState) : Prop :=
  (∀ p ∈ st.isbnCache, SortedD p.2) ∧ ∀ p ∈ st.titleCache, SortedD p.2

/-! ### `SimpleCache` (TTL cache) and `_SourceMetric` -/

/-- `CacheEntry`: cached data with creation time and TTL; times are in
hours on an explicit clock. -/
structure CacheEntry where
  data : List UnifiedBookResult
  created_at : Rat
  ttl_hours : Rat := 24
deriving Repr, DecidableEq

/-- `CacheEntry.is_expired`: `now > created_at + ttl_hours`. -/
def CacheEntry.isExpired (now : Rat) (e : CacheEntry) : Bool :=
  now > e.created_at + e.ttl_hours

/-- `SimpleCache.get`: fresh entries are returned, expired entries are
deleted on access (lazy eviction) and count as a miss. -/
def simpleCacheGet (now : Rat) (c : List (String × CacheEntry)) (key : String) :
    Option (List UnifiedBookResult) × List (String × CacheEntry) :=
  match lookupAssoc c key with
  | none => (none, c)
  | some e =>
    if e.isExpired now then (none, c.filter (fun p => !(p.1 == key)))
    else (some e.data, c)

/-- `SimpleCache.set`: stores the data with `created_at = now` and the
default 24-hour TTL. -/
def simpleCacheSet (now : Rat) (c : List (String × CacheEntry)) (key : String)
    (data : List UnifiedBookResult) : List (String × CacheEntry) :=
  setAssoc c key { data := data, created_at := now }

/-- `_SourceMetric`, without the wall-clock `started`/`ended` fields. -/
structure SourceMetric where
  source : String
  status : String := "success"
  results_count : Nat := 0
  error : String := ""
deriving Repr, DecidableEq

/-! ### `ParallelSearchStrategy` (ISBN path)

Thread scheduling is abstracted away: every submitted task completes, so
the timeout branch (wall-clock) never fires and the `done` set is
traversed in submission order.  What is kept exact is the per-task
`_search_single_source` body, the outer `fut.result()` try/except, the
metric bookkeeping, and the cache protocol. -/

/-- `_search_single_source`, BnF by-ISBN branch body.  The real
`BnfService.search_by_isbn` returns a single `BnfBook | None`; iterating
`None` (or a lone dataclass) raises `TypeError` inside the `try`, while a
duck-typed service returning a list is iterated normally. -/
def singleSourceIsbnBnf (b : BnfBehaviour) :
    List UnifiedBookResult × Option String :=
  match b.byIsbn with
  | .error e => ([], some e)
  | .ok none => ([], some "TypeError: NoneType object is not iterable")
  | .ok (some books) => (books.map (fromBnfBook · siBnfIsbnPar), none)

/-- `_search_single_source`, OpenLibrary by-ISBN branch body
(`if ext_book:` handles `None` without raising). -/
def singleSourceIsbnOl (o : OpenLibraryBehaviour) :
    List UnifiedBookResult × Option String :=
  match o.byIsbn with
  | .error e => ([], some e)
  | .ok none => ([], none)
  | .ok (some eb) => ([fromExtBook eb siOLIsbnPar], none)

/-- `_search_single_source`, Google Books by-ISBN branch body.  When a
`BookDTO` is returned, `book_dto.authors_text` raises `AttributeError`
(`BookDTO` is a slots dataclass with no such attribute), before any
result is appended. -/
def singleSourceIsbnGoogle (g : GoogleBehaviour) :
    List UnifiedBookResult × Option String :=
  match g.byIsbnDto with
  | .error e => ([], some e)
  | .ok none => ([], none)
  | .ok (some _) => ([], some "AttributeError: authors_text")

/-- The enclosing `try/except Exception` of `_search_single_source`: any
pending exception is logged and dropped, and the function returns the
results appended so far.  The worker therefore never lets an exception
reach its future. -/
def searchSingleSource (body : List UnifiedBookResult × Option String) :
    List UnifiedBookResult :=
  body.1

/-- The `fut.result()` collection step with its try/except: a normal
completion yields a `success` metric counting the results; a raising
future would yield an `error` metric and contribute nothing. -/
def collectSource (name : String)
    (value : Except String (List UnifiedBookResult)) :
    SourceMetric × List UnifiedBookResult :=
  match value with
  | .ok l => ({ source := name, results_count := l.length }, l)
  | .error e => ({ source := name, status := "error", error := e }, [])

/-- The tasks submitted by `ParallelSearchStrategy.search_by_isbn`, in
submission order BnF, OpenLibrary, Google Books. -/
def parallelTasksIsbn (sv : Services) :
    List (String × (List UnifiedBookResult × Option String)) :=
  (match sv.bnf with
   | none => [] | some b => [("BnF", singleSourceIsbnBnf b)])
  ++ (match sv.openlibrary with
      | none => [] | some o => [("OpenLibrary", singleSourceIsbnOl o)])
  ++ (match sv.google with
      | none => [] | some g => [("Google Books", singleSourceIsbnGoogle g)])

/-- The dispatch-and-collect part of
`ParallelSearchStrategy.search_by_isbn` (after a cache miss): run every
task, collect results and metrics in submission order, and write the
cache only when the concatenated results are non-empty. -/
def parallelDispatchIsbn (now : Rat) (key : String) (sv : Services)
    (gc1 : List (String × CacheEntry)) :
    List UnifiedBookResult × List SourceMetric ×
      List (String × CacheEntry) × Bool :=
  let collected := (parallelTasksIsbn sv).map
    (fun t => collectSource t.1 (Except.ok (searchSingleSource t.2)))
  let results := (collected.map (·.2)).flatten
  let metrics := collected.map (·.1)
  let gc2 := if !results.isEmpty then simpleCacheSet now gc1 key results
    else gc1
  (results, metrics, gc2, true)

/-- `ParallelSearchStrategy.search_by_isbn`: strategy-level cache lookup
(`if cached_results:` treats an empty cached list as a miss), then a
dispatch on miss.  The final `Bool` records whether a dispatch (one
batch of network calls) happened. -/
def parallelSearchByIsbn (now : Rat) (isbn : String) (sv : Services)
    (gc : List (String × CacheEntry)) :
    List UnifiedBookResult × List SourceMetric ×
      List (String × CacheEntry) × Bool :=
  let key := "isbn:" ++ isbn
  let looked := simpleCacheGet now gc key
  match looked.1 with
  | some l =>
    if !l.isEmpty then (l, [], looked.2, false)
    else parallelDispatchIsbn now key sv looked.2
  | none => parallelDispatchIsbn now key sv looked.2

/-! ### `MetaSearchService` facade over the parallel strategy -/

structure MetaFacadeState where
  isbnCache : List (String × List UnifiedBookResult) := []
  titleCache : List (String × List UnifiedBookResult) := []
  globalCache : List (String × CacheEntry) := []
  dispatches : Nat := 0
deriving Repr, DecidableEq

/-- `MetaSearchService.get_cache_stats`: sizes of the two facade-level
dict caches (the strategy-level `SimpleCache` is not reported). -/
def getCacheStats (st : MetaFacadeState) : Nat × Nat :=
  (st.isbnCache.length, st.titleCache.length)

/-- `MetaSearchService.search_by_isbn` wired to
`ParallelSearchStrategy`.  The facade's own `_isbn_cache` is a plain dict
with no TTL; `dispatches` counts strategy dispatch batches (network
activity).  The in-place `results.sort(...)` aliasing between the
returned list and the strategy-cache entry is not modelled: none of the
claims reads the strategy cache after the facade sort. -/
def facadeParSearchByIsbn (now : Rat) (isbn : String) (useCache : Bool)
    (sv : Services) (st : MetaFacadeState) :
    List UnifiedBookResult × MetaFacadeState :=
  if pyStrip isbn == "" then ([], st)
  else
    let clean := cleanIsbn isbn
    match (if useCache then lookupAssoc st.isbnCache clean else none) with
    | some rs => (rs, st)
    | none =>
      let stepped := parallelSearchByIsbn now clean sv st.globalCache
      let sorted := sortDesc stepped.1
      let st2 := { st with
        globalCache := stepped.2.2.1
        dispatches := st.dispatches + (if stepped.2.2.2 then 1 else 0) }
      let st3 := if useCache then
        { st2 with isbnCache := setAssoc st2.isbnCache clean sorted } else st2
      (sorted, st3)

/-! ### Reference semantics for the merge/cache interaction (claim C10)

Python lists hold object references and `_merge_results` mutates the
representative `UnifiedBookResult` in place; the module-level
`_global_cache` entry written by `ParallelSearchStrategy.search_by_isbn`
holds references to those same objects.  This heap model makes the
aliasing explicit: the heap is the object store (`Nat` references) and
the strategy cache stores reference lists.  The per-source workers are
abstracted to the list of freshly normalized values this call would
produce. -/

structure RefCacheEntry where
  refs : List Nat
  created_at : Rat
  ttl_hours : Rat := 24
deriving Repr, DecidableEq

def RefCacheEntry.isExpired (now : Rat) (e : RefCacheEntry) : Bool :=
  now > e.created_at + e.ttl_hours

structure PStratState where
  heap : List UnifiedBookResult
  cache : List (String × RefCacheEntry)
deriving Repr, DecidableEq

def heapGet (h : List UnifiedBookResult) (r : Nat) : UnifiedBookResult :=
  h.getD r default

/-- `SimpleCache.get` on reference lists. -/
def refCacheGet (now : Rat) (c : List (String × RefCacheEntry)) (key : String) :
    Option (List Nat) × List (String × RefCacheEntry) :=
  match lookupAssoc c key with
  | none => (none, c)
  | some e =>
    if e.isExpired now then (none, c.filter (fun p => !(p.1 == key)))
    else (some e.refs, c)

/-- `ParallelSearchStrategy.search_by_isbn` in the heap model: on a hit
the cached references are returned as-is; on a miss the fresh values are
allocated on the heap and their references are cached (when non-empty)
before being returned. -/
def parallelSearchRefs (now : Rat) (isbn : String)
    (fresh : List UnifiedBookResult) (s : PStratState) :
    List Nat × PStratState :=
  let key := "isbn:" ++ isbn
  let looked := refCacheGet now s.cache key
  let dispatch := fun (c1 : List (String × RefCacheEntry)) =>
    let refs := (List.range fresh.length).map (· + s.heap.length)
    let c2 := if !refs.isEmpty then
      setAssoc c1 key { refs := refs, created_at := now } else c1
    (refs, PStratState.mk (s.heap ++ fresh) c2)
  match looked.1 with
  | some rs =>
    if !rs.isEmpty then (rs, { s with cache := looked.2 })
    else dispatch looked.2
  | none => dispatch looked.2

/-- `_deduplicate_results` on references: groups are computed over the
dereferenced values, each group's first highest-scoring member is merged
in place (the heap cell of the representative is overwritten with the
merged value), and the representatives' references are returned in group
first-occurrence order. -/
def dedupRefs (heap : List UnifiedBookResult) (refs : List Nat) :
    List Nat × List UnifiedBookResult :=
  if refs.isEmpty then (refs, heap)
  else
    let groups := refs.foldl
      (fun gs r =>
        let k := dedupKey (heapGet heap r)
        if gs.any (fun g => g.1 == k) then
          gs.map (fun g => if g.1 == k then (g.1, g.2 ++ [r]) else g)
        else gs ++ [(k, [r])])
      ([] : List (String × List Nat))
    groups.foldl
      (fun acc g =>
        let vals := g.2.map (heapGet acc.2)
        let idx := maxIdxByScore vals
        let merged := mergeResultsAt vals idx
        (acc.1 ++ [g.2.getD idx 0], acc.2.set (g.2.getD idx 0) merged))
      (([], heap) : List Nat × List UnifiedBookResult)

/-- `BestResultStrategy.search_by_isbn`: parallel gathering (which caches
the references) first, deduplication/merge (which mutates the heap)
second. -/
def bestSearchByIsbnRefs (now : Rat) (isbn : String)
    (fresh : List UnifiedBookResult) (s : PStratState) :
    List Nat × PStratState :=
  let gathered := parallelSearchRefs now isbn fresh s
  let deduped := dedupRefs gathered.2.heap gathered.1
  (deduped.1, { gathered.2 with heap := deduped.2 })

/-! ### Concrete instances used by witnesses and counterexamples -/

/-- A concrete BnF-sourced result for instantiating claim C2. -/
def rC2W : UnifiedBookResult :=
  { title := "Dune", source := ⟨"BnF", 9/10, 1, true⟩,
    authors := ["Frank Herbert"], main_author := some "Frank Herbert" }

def srcRepC4 : SearchSourceInfo := ⟨"BnF", 95/100, 1, true⟩

def srcSibC4 : SearchSourceInfo := ⟨"Google Books", 8/10, 1, true⟩

/-- The representative of claim C4's scenario: title X, no isbn,
description d1, score 90. -/
def repC4 : UnifiedBookResult :=
  { title := "X", source := srcRepC4, description := some "d1", score := 90 }

/-- The sibling of claim C4's scenario: title X, isbn 123, description
d2, score 70. -/
def sibC4 : UnifiedBookResult :=
  { title := "X", source := srcSibC4, isbn := some "123",
    description := some "d2", score := 70 }

/-- Claim C5 scenario, first member of the first dedup group (BnF,
score 62.5). -/
def a1C5 : UnifiedBookResult :=
  fromBnfBook ⟨"x", none, ["Zed"], none, none, none, none⟩ siBnfIsbnSeq

/-- Claim C5 scenario, sole member of the second dedup group (BnF with
isbn and year, score 75.5). -/
def b1C5 : UnifiedBookResult :=
  UnifiedBookResult.withScore
    { title := "y", source := ⟨"BnF", 95/100, 0, true⟩, authors := ["Q"],
      main_author := some "Q", isbn := some "i", year := some "2000" }

/-- Claim C5 scenario, second member of the first dedup group (Google
Books with a description, score 61). -/
def a2C5 : UnifiedBookResult :=
  UnifiedBookResult.withScore
    { title := "x", source := ⟨"Google Books", 8/10, 0, true⟩,
      authors := ["Zed"], main_author := some "Zed", description := some "dd" }

/-- A BnF record for the claim C6 scenario. -/
def bnfBookC6 : BnfBook :=
  ⟨"Dune", none, ["Frank Herbert"], some "9780441172719", some "Ace",
   some "1965", none⟩

/-- Claim C6 services: a BnF adapter that answers with one record (as a
list, so the strategy's iteration succeeds); the other services are
absent. -/
def svC6 : Services :=
  ⟨some ⟨.ok (some [bnfBookC6]), .ok none⟩, none, none⟩

/-- State after the first C6 call (t = 0 h, cold caches). -/
def stC6one : MetaFacadeState :=
  (facadeParSearchByIsbn 0 "123" true svC6 {}).2

/-- State after the second C6 call (t = 1 h, inside the 24 h TTL). -/
def stC6two : MetaFacadeState :=
  (facadeParSearchByIsbn 1 "123" true svC6 stC6one).2

/-- State after the third C6 call (t = 25 h, past the 24 h TTL). -/
def stC6three : MetaFacadeState :=
  (facadeParSearchByIsbn 25 "123" true svC6 stC6two).2

/-- A Google Books volume with no title (and no other key). -/
def gvC7 : GoogleVolumeInfo := {}

def siGC7 : SearchSourceInfo := ⟨"Google Books", 8/10, 0, true⟩

/-- A BnF record whose title is the empty string. -/
def bnfC7 : BnfBook := ⟨"", none, [], none, none, none, none⟩

/-- The result the normalizer produces for `gvC7`. -/
def rC7ok : UnifiedBookResult :=
  (fromGoogleBooks gvC7 siGC7).toOption.getD default

def srcRepC8 : SearchSourceInfo := ⟨"BnF", 95/100, 1, true⟩

def srcSibC8 : SearchSourceInfo := ⟨"OpenLibrary", 6/10, 1, true⟩

/-- Claim C8 representative with author "Jane Doe". -/
def repC8 : UnifiedBookResult :=
  { title := "X", source := srcRepC8, authors := ["Jane Doe"],
    main_author := some "Jane Doe", score := 80 }

/-- Claim C8 sibling whose author differs only by case. -/
def sibC8 : UnifiedBookResult :=
  { title := "X", source := srcSibC8, authors := ["JANE DOE"],
    main_author := some "JANE DOE", score := 60 }

/-- Claim C9 services: the BnF adapter raises (transport failure), the
OpenLibrary adapter finds nothing, Google Books is absent. -/
def svC9 : Services :=
  ⟨some ⟨.error "boom", .error "boom"⟩, some ⟨.ok none, .ok none⟩, none⟩

/-- A raising BnF behaviour for the claim C9 witness. -/
def bC9W : BnfBehaviour := ⟨.error "boom", .error "boom"⟩

/-- Claim C3 services: every adapter completes without raising and
returns no record. -/
def svC3 : Services :=
  ⟨some ⟨.ok (some []), .ok (some [])⟩, some ⟨.ok none, .ok none⟩,
   some ⟨.ok none, .ok none, .ok none⟩⟩

def srcC10A : SearchSourceInfo := ⟨"BnF", 95/100, 1, true⟩

def srcC10B : SearchSourceInfo := ⟨"Google Books", 8/10, 1, true⟩

/-- Claim C10 representative-to-be: BnF result without description. -/
def aC10 : UnifiedBookResult :=
  { title := "X", source := srcC10A, authors := ["Zed"],
    main_author := some "Zed", score := 90 }

/-- Claim C10 sibling: Google Books result carrying a description. -/
def bC10 : UnifiedBookResult :=
  { title := "X", source := srcC10B, authors := ["Zed"],
    main_author := some "Zed", description := some "d2", score := 70 }

/-- What the in-place merge turns `aC10` into: description backfilled
from `bC10` and score recomputed (30 + 29 + 9.5 = 68.5). -/
def mergedC10 : UnifiedBookResult :=
  { aC10 with description := some "d2", score := 137/2 }

/-- An OpenLibrary record for the claim C1 witness. -/
def extBookC1 : ExtBook :=
  ⟨"Dune", none, ["Frank Herbert"], some "9780441172719", none,
   some "1965", none⟩

/-- Claim C1 witness services: BnF raises, OpenLibrary returns records,
Google Books returns `None` on the sequential ISBN path (which the
strategy then fails to iterate) and an empty list on the title path. -/
def svC1W : Services :=
  ⟨some ⟨.error "down", .error "down"⟩,
   some ⟨.ok (some extBookC1), .ok (some [extBookC1])⟩,
   some ⟨.ok none, .ok (some []), .ok none⟩⟩

/-! ### Helper lemmas -/

theorem calculateQualityScore_set_score (m : UnifiedBookResult) (s : Rat) :
    calculateQualityScore { m with score := s } = calculateQualityScore m :=
  rfl

theorem backfillSubtitle_isbn (m r : UnifiedBookResult) :
    (backfillSubtitle m r).isbn = m.isbn := by
  unfold backfillSubtitle; split <;> rfl

theorem backfillDescription_isbn (m r : UnifiedBookResult) :
    (backfillDescription m r).isbn = m.isbn := by
  unfold backfillDescription; split <;> rfl

theorem backfillSummary_isbn (m r : UnifiedBookResult) :
    (backfillSummary m r).isbn = m.isbn := by
  unfold backfillSummary; split <;> rfl

theorem backfillThumbnail_isbn (m r : UnifiedBookResult) :
    (backfillThumbnail m r).isbn = m.isbn := by
  unfold backfillThumbnail; split <;> rfl

theorem backfillCoverImage_isbn (m r : UnifiedBookResult) :
    (backfillCoverImage m r).isbn = m.isbn := by
  unfold backfillCoverImage; split <;> rfl

theorem backfillPublisher_isbn (m r : UnifiedBookResult) :
    (backfillPublisher m r).isbn = m.isbn := by
  unfold backfillPublisher; split <;> rfl

theorem backfillCollection_isbn (m r : UnifiedBookResult) :
    (backfillCollection m r).isbn = m.isbn := by
  unfold backfillCollection; split <;> rfl

theorem backfillSubtitle_description (m r : UnifiedBookResult) :
    (backfillSubtitle m r).description = m.description := by
  unfold backfillSubtitle; split <;> rfl

theorem backfillSummary_description (m r : UnifiedBookResult) :
    (backfillSummary m r).description = m.description := by
  unfold backfillSummary; split <;> rfl

theorem backfillThumbnail_description (m r : UnifiedBookResult) :
    (backfillThumbnail m r).description = m.description := by
  unfold backfillThumbnail; split <;> rfl

theorem backfillCoverImage_description (m r : UnifiedBookResult) :
    (backfillCoverImage m r).description = m.description := by
  unfold backfillCoverImage; split <;> rfl

theorem backfillPublisher_description (m r : UnifiedBookResult) :
    (backfillPublisher m r).description = m.description := by
  unfold backfillPublisher; split <;> rfl

theorem backfillCollection_description (m r : UnifiedBookResult) :
    (backfillCollection m r).description = m.description := by
  unfold backfillCollection; split <;> rfl

/-- The description backfill is skipped when the accumulator's
description is already non-empty. -/
theorem backfillDescription_of_truthy (m r : UnifiedBookResult)
    (h : truthy m.description = true) :
    (backfillDescription m r).description = m.description := by
  unfold backfillDescription
  rw [if_neg]
  simp [h]

theorem backfillSubtitle_authors (m r : UnifiedBookResult) :
    (backfillSubtitle m r).authors = m.authors := by
  unfold backfillSubtitle; split <;> rfl

theorem backfillDescription_authors (m r : UnifiedBookResult) :
    (backfillDescription m r).authors = m.authors := by
  unfold backfillDescription; split <;> rfl

theorem backfillSummary_authors (m r : UnifiedBookResult) :
    (backfillSummary m r).authors = m.authors := by
  unfold backfillSummary; split <;> rfl

theorem backfillThumbnail_authors (m r : UnifiedBookResult) :
    (backfillThumbnail m r).authors = m.authors := by
  unfold backfillThumbnail; split <;> rfl

theorem backfillCoverImage_authors (m r : UnifiedBookResult) :
    (backfillCoverImage m r).authors = m.authors := by
  unfold backfillCoverImage; split <;> rfl

theorem backfillPublisher_authors (m r : UnifiedBookResult) :
    (backfillPublisher m r).authors = m.authors := by
  unfold backfillPublisher; split <;> rfl

theorem backfillCollection_authors (m r : UnifiedBookResult) :
    (backfillCollection m r).authors = m.authors := by
  unfold backfillCollection; split <;> rfl

/-- `mergeFields` never touches the isbn. -/
theorem mergeFields_isbn (m r : UnifiedBookResult) :
    (mergeFields m r).isbn = m.isbn := by
  simp only [mergeFields, backfillCollection_isbn, backfillPublisher_isbn,
    backfillCoverImage_isbn, backfillThumbnail_isbn, backfillSummary_isbn,
    backfillDescription_isbn, backfillSubtitle_isbn]

/-- `mergeFields` keeps a non-empty description. -/
theorem mergeFields_description (m r : UnifiedBookResult)
    (h : truthy m.description = true) :
    (mergeFields m r).description = m.description := by
  simp only [mergeFields, backfillCollection_description,
    backfillPublisher_description, backfillCoverImage_description,
    backfillThumbnail_description, backfillSummary_description]
  rw [backfillDescription_of_truthy _ r (by rw [backfillSubtitle_description]; exact h),
    backfillSubtitle_description]

/-- The authors list produced by `mergeFields` is the author union. -/
theorem mergeFields_authors (m r : UnifiedBookResult) :
    (mergeFields m r).authors = mergeAuthors m.authors r.authors := by
  simp only [mergeFields, mergeAuthors, backfillCollection_authors,
    backfillPublisher_authors, backfillCoverImage_authors,
    backfillThumbnail_authors, backfillSummary_authors,
    backfillDescription_authors, backfillSubtitle_authors]

theorem mergeStep_frame (bestIdx : Nat) (m : UnifiedBookResult)
    (p : Nat × UnifiedBookResult) :
    (mergeStep bestIdx m p).isbn = m.isbn
    ∧ (truthy m.description = true →
        (mergeStep bestIdx m p).description = m.description) := by
  unfold mergeStep
  dsimp only
  split
  · split
    · exact ⟨rfl, fun _ => rfl⟩
    · exact ⟨mergeFields_isbn m _, fun h => mergeFields_description m _ h⟩
  · split
    · exact ⟨rfl, fun _ => rfl⟩
    · exact ⟨mergeFields_isbn m _, fun h => mergeFields_description m _ h⟩

theorem foldl_mergeStep_frame (bestIdx : Nat)
    (l : List (Nat × UnifiedBookResult)) :
    ∀ m : UnifiedBookResult,
      (l.foldl (mergeStep bestIdx) m).isbn = m.isbn
      ∧ (truthy m.description = true →
          (l.foldl (mergeStep bestIdx) m).description = m.description) := by
  induction l with
  | nil => exact fun m => ⟨rfl, fun _ => rfl⟩
  | cons p l ih =>
    intro m
    have hs := mergeStep_frame bestIdx m p
    have ht := ih (mergeStep bestIdx m p)
    refine ⟨?_, fun hd => ?_⟩
    · rw [List.foldl_cons, ht.1, hs.1]
    · have hd2 : truthy (mergeStep bestIdx m p).description = true := by
        rw [hs.2 hd]; exact hd
      rw [List.foldl_cons, ht.2 hd2, hs.2 hd]

/-- One step of the author-union fold, definitionally. -/
theorem mergeAuthors_cons (xs : List String) (y : String) (ys : List String) :
    mergeAuthors xs (y :: ys)
      = mergeAuthors (if xs.contains y then xs else xs ++ [y]) ys :=
  rfl

theorem mergeAuthors_step_pos (xs : List String) (y : String) (h : y ∈ xs) :
    (if xs.contains y then xs else xs ++ [y]) = xs := by
  simp [h]

theorem mergeAuthors_step_neg (xs : List String) (y : String) (h : y ∉ xs) :
    (if xs.contains y then xs else xs ++ [y]) = xs ++ [y] := by
  simp [h]

theorem mergeAuthors_append : ∀ (ys xs : List String),
    ∃ ext, mergeAuthors xs ys = xs ++ ext := by
  intro ys
  induction ys with
  | nil => exact fun xs => ⟨[], by simp [mergeAuthors]⟩
  | cons y ys ih =>
    intro xs
    by_cases h : y ∈ xs
    · obtain ⟨ext, hext⟩ := ih xs
      exact ⟨ext, by rw [mergeAuthors_cons, mergeAuthors_step_pos xs y h, hext]⟩
    · obtain ⟨ext, hext⟩ := ih (xs ++ [y])
      refine ⟨y :: ext, ?_⟩
      rw [mergeAuthors_cons, mergeAuthors_step_neg xs y h, hext,
        List.append_assoc]
      rfl

theorem mergeAuthors_mem : ∀ (ys xs : List String) (a : String),
    a ∈ mergeAuthors xs ys ↔ a ∈ xs ∨ a ∈ ys := by
  intro ys
  induction ys with
  | nil => intro xs a; simp [mergeAuthors]
  | cons y ys ih =>
    intro xs a
    by_cases h : y ∈ xs
    · rw [mergeAuthors_cons, mergeAuthors_step_pos xs y h, ih xs a]
      simp only [List.mem_cons]
      constructor
      · tauto
      · rintro (hx | hx | hx)
        · exact Or.inl hx
        · exact Or.inl (hx ▸ h)
        · exact Or.inr hx
    · rw [mergeAuthors_cons, mergeAuthors_step_neg xs y h, ih (xs ++ [y]) a]
      simp only [List.mem_append, List.mem_singleton, List.mem_cons]
      tauto

theorem mergeAuthors_nodup : ∀ (ys xs : List String),
    xs.Nodup → (mergeAuthors xs ys).Nodup := by
  intro ys
  induction ys with
  | nil => intro xs h; simpa [mergeAuthors] using h
  | cons y ys ih =>
    intro xs h
    by_cases hc : y ∈ xs
    · rw [mergeAuthors_cons, mergeAuthors_step_pos xs y hc]
      exact ih xs h
    · rw [mergeAuthors_cons, mergeAuthors_step_neg xs y hc]
      refine ih (xs ++ [y]) ?_
      simp [List.nodup_append, h, hc]

theorem mem_insertDesc (r y : UnifiedBookResult) :
    ∀ (l : List UnifiedBookResult), y ∈ insertDesc r l ↔ y = r ∨ y ∈ l := by
  intro l
  induction l with
  | nil => simp [insertDesc]
  | cons x xs ih =>
    by_cases h : x.score < r.score
    · simp only [insertDesc, if_pos h, List.mem_cons]
    · simp only [insertDesc, if_neg h, List.mem_cons, ih]
      tauto

theorem sortedD_insertDesc (r : UnifiedBookResult) :
    ∀ (l : List UnifiedBookResult), SortedD l → SortedD (insertDesc r l) := by
  intro l
  induction l with
  | nil => intro _; simp [insertDesc, SortedD]
  | cons x xs ih =>
    intro h
    rw [SortedD, List.pairwise_cons] at h
    by_cases hc : x.score < r.score
    · simp only [insertDesc, if_pos hc]
      rw [SortedD, List.pairwise_cons]
      refine ⟨?_, List.Pairwise.cons h.1 h.2⟩
      intro y hy
      rcases List.mem_cons.mp hy with rfl | hy2
      · exact le_of_lt hc
      · exact le_trans (h.1 y hy2) (le_of_lt hc)
    · simp only [insertDesc, if_neg hc]
      rw [SortedD, List.pairwise_cons]
      refine ⟨?_, ih h.2⟩
      intro y hy
      rcases (mem_insertDesc r y xs).mp hy with rfl | hy2
      · exact not_lt.mp hc
      · exact h.1 y hy2

theorem sortedD_sortDesc (l : List UnifiedBookResult) : SortedD (sortDesc l) := by
  induction l with
  | nil => simp [sortDesc, SortedD]
  | cons x xs ih => exact sortedD_insertDesc x (sortDesc xs) ih

theorem lookupAssoc_mem {α : Type} (xs : List (String × α)) (k : String)
    (v : α) (h : lookupAssoc xs k = some v) : ∃ k2, (k2, v) ∈ xs := by
  unfold lookupAssoc at h
  cases hf : xs.find? (fun p => p.1 == k) with
  | none => rw [hf] at h; simp at h
  | some p =>
    rw [hf] at h
    have hp : p.2 = v := by
      cases h
      rfl
    exact ⟨p.1, by
      rw [← hp]
      simpa [Prod.mk.eta] using List.mem_of_find?_eq_some hf⟩

theorem setAssoc_mem {α : Type} (xs : List (String × α)) (k : String)
    (v : α) (p : String × α) (h : p ∈ setAssoc xs k v) :
    p ∈ xs ∨ p = (k, v) := by
  unfold setAssoc at h
  rcases List.mem_append.mp h with h1 | h2
  · exact Or.inl (List.mem_filter.mp h1).1
  · simp only [List.mem_singleton] at h2
    exact Or.inr h2

theorem lookupAssoc_setAssoc_self {α : Type} (xs : List (String × α))
    (k : String) (v : α) : lookupAssoc (setAssoc xs k v) k = some v := by
  unfold lookupAssoc setAssoc
  induction xs with
  | nil => simp
  | cons x xs ih =>
    by_cases h : x.1 == k
    · simp only [List.filter_cons, h]
      exact ih
    · simpa [List.filter_cons, h, List.find?_cons] using ih

theorem lookupAssoc_none_filter {α : Type} (xs : List (String × α))
    (k : String) (h : lookupAssoc xs k = none) :
    xs.filter (fun p => !(p.1 == k)) = xs := by
  unfold lookupAssoc at h
  cases hf : xs.find? (fun p => p.1 == k) with
  | some p => rw [hf] at h; simp at h
  | none =>
    have hall := List.find?_eq_none.mp hf
    refine List.filter_eq_self.mpr ?_
    intro p hp
    simpa using hall p hp

theorem setAssoc_length_of_none {α : Type} (xs : List (String × α))
    (k : String) (v : α) (h : lookupAssoc xs k = none) :
    (setAssoc xs k v).length = xs.length + 1 := by
  unfold setAssoc
  rw [lookupAssoc_none_filter xs k h]
  simp

theorem simpleCacheGet_length_le (now : Rat)
    (c : List (String × CacheEntry)) (key : String) :
    (simpleCacheGet now c key).2.length ≤ c.length := by
  unfold simpleCacheGet
  cases lookupAssoc c key with
  | none => exact le_refl _
  | some e =>
    dsimp only
    split
    · exact List.length_filter_le _ c
    · exact le_refl _

theorem parallelDispatch_gc_of_empty (now : Rat) (key : String)
    (sv : Services) (gc1 : List (String × CacheEntry))
    (h : (parallelDispatchIsbn now key sv gc1).1 = []) :
    (parallelDispatchIsbn now key sv gc1).2.2.1 = gc1 := by
  unfold parallelDispatchIsbn at h ⊢
  dsimp only at h ⊢
  rw [h]
  rfl

theorem parallel_gc_length_le (now : Rat) (isbn : String) (sv : Services)
    (gc : List (String × CacheEntry))
    (h : (parallelSearchByIsbn now isbn sv gc).1 = []) :
    (parallelSearchByIsbn now isbn sv gc).2.2.1.length ≤ gc.length := by
  have hget := simpleCacheGet_length_le now gc ("isbn:" ++ isbn)
  unfold parallelSearchByIsbn at h ⊢
  dsimp only at h ⊢
  cases hl : (simpleCacheGet now gc ("isbn:" ++ isbn)).1 with
  | some l =>
    rw [hl] at h
    dsimp only at h ⊢
    by_cases he : !l.isEmpty
    · rw [if_pos he]
      exact hget
    · rw [if_neg he] at h ⊢
      rw [parallelDispatch_gc_of_empty _ _ _ _ h]
      exact hget
  | none =>
    rw [hl] at h
    dsimp only at h ⊢
    rw [parallelDispatch_gc_of_empty _ _ _ _ h]
    exact hget

theorem mergeResultsAt_score_recomputed (group : List UnifiedBookResult)
    (idx : Nat) :
    (mergeResultsAt group idx).score
      = calculateQualityScore (mergeResultsAt group idx) :=
  rfl

/-! ### Claim theorems -/

/-- Claim C2: for every UnifiedResult over one of the three sources, the
quality score computed at construction equals the specified formula:
trust weight (BnF 1.0, Google Books 0.8, OpenLibrary 0.6) times 30, plus
the fixed field bonuses, minus 5 when the response time exceeds 5.0 s,
plus confidence times 10, clamped to the interval from 0 to 100. -/
theorem claim_c2 (r : UnifiedBookResult)
    (h : r.source.name = "BnF" ∨ r.source.name = "Google Books"
      ∨ r.source.name = "OpenLibrary") :
    (UnifiedBookResult.withScore r).score = specQualityScore r := by
  have hw : sourceScores r.source.name = specTrustWeight r.source.name := by
    rcases h with h | h | h <;> simp [sourceScores, specTrustWeight, h]
  have hcalc : calculateQualityScore r = specQualityScore r := by
    unfold calculateQualityScore specQualityScore
    rw [hw]
    by_cases hrt : r.source.response_time > 5
    · simp only [if_pos hrt]; ring_nf
    · simp only [if_neg hrt]; ring_nf
  simpa [UnifiedBookResult.withScore] using hcalc

theorem claim_c2_witness :
    (UnifiedBookResult.withScore rC2W).score = specQualityScore rC2W :=
  claim_c2 rC2W (Or.inl rfl)

section

/- The Batteries rational-number operations are `@[irreducible]`, which
blocks the `decide` tactic's evaluation of concrete quality scores; the
attribute is local to this section and only restores default
transparency. -/
attribute [local semireducible] Rat.mul Rat.inv Rat.add Rat.sub

/-- Claim C4 counterexample: with exactly the claim's inputs (the
representative has title X, no isbn, description d1, score 90; the
sibling in the same dedup group has isbn 123, description d2, score 70),
the merged result has isbn `None` — the claimed `isbn = "123"` backfill
does not happen — while the description is d1 as claimed. -/
theorem claim_c4_counterexample :
    (mergeResultsAt [repC4, sibC4] 0).isbn = none
    ∧ ¬((mergeResultsAt [repC4, sibC4] 0).isbn = some "123")
    ∧ (mergeResultsAt [repC4, sibC4] 0).description = some "d1" := by
  decide

/-- Claim C4 as amended: during merge of a dedup group, the
representative's isbn is never changed — an empty ISBN is *not*
backfilled from a sibling (isbn is absent from the backfill list) — and a
non-empty description on the representative is never overwritten. -/
theorem claim_c4_amended (group : List UnifiedBookResult) (bestIdx : Nat)
    (hd : truthy (group.getD bestIdx default).description = true) :
    (mergeResultsAt group bestIdx).isbn = (group.getD bestIdx default).isbn
    ∧ (mergeResultsAt group bestIdx).description
        = (group.getD bestIdx default).description := by
  have h2 := foldl_mergeStep_frame bestIdx group.enum
    (group.getD bestIdx default)
  exact ⟨h2.1, h2.2 hd⟩

theorem claim_c4_amended_witness :
    (mergeResultsAt [repC4, sibC4] 0).isbn
      = ([repC4, sibC4].getD 0 default).isbn
    ∧ (mergeResultsAt [repC4, sibC4] 0).description
      = ([repC4, sibC4].getD 0 default).description :=
  claim_c4_amended [repC4, sibC4] 0 (by decide)

/-- Claim C7 counterexample: a Google Books record with no usable title
is *not* dropped — the normalizer returns a result whose title is the
placeholder `"Titre inconnu"` — and a BnF record with an empty title
yields a result whose title is the empty string. -/
theorem claim_c7_counterexample :
    (fromGoogleBooks gvC7 siGC7).toOption.isSome = true
    ∧ (fromGoogleBooks gvC7 siGC7).toOption.map UnifiedBookResult.title
        = some "Titre inconnu"
    ∧ (fromBnfBook bnfC7 siBnfIsbnSeq).title = "" := by
  decide

/-- Claim C7 as amended: the normalizers never drop a record for lacking
a title: whenever `from_google_books` returns a result, its title is the
record's title or the placeholder `"Titre inconnu"` when the record has
none, and `from_bnf_book` copies the BnF title verbatim (possibly
empty). -/
theorem claim_c7_amended (gv : GoogleVolumeInfo) (si si2 : SearchSourceInfo)
    (r : UnifiedBookResult) (b : BnfBook)
    (h : fromGoogleBooks gv si = Except.ok r) :
    r.title = gv.title.getD "Titre inconnu"
    ∧ (fromBnfBook b si2).title = b.titre := by
  refine ⟨?_, rfl⟩
  cases hA : gv.authors with
  | none =>
    unfold fromGoogleBooks at h
    rw [hA] at h
    simp only [bind, Except.bind, pure, Except.pure, Except.ok.injEq] at h
    rw [← h]
    rfl
  | some la =>
    cases la with
    | nil =>
      unfold fromGoogleBooks at h
      rw [hA] at h
      simp [bind, Except.bind, throw, throwThe, MonadExceptOf.throw] at h
    | cons a as =>
      unfold fromGoogleBooks at h
      rw [hA] at h
      simp only [bind, Except.bind, pure, Except.pure, Except.ok.injEq] at h
      rw [← h]
      rfl

theorem claim_c7_amended_witness :
    rC7ok.title = gvC7.title.getD "Titre inconnu"
    ∧ (fromBnfBook bnfC7 siGC7).title = bnfC7.titre :=
  claim_c7_amended gvC7 siGC7 siGC7 rC7ok bnfC7 (by decide)

/-- Claim C8 counterexample: a sibling author differing from the
representative's only by case is appended anyway (the membership test is
case-sensitive), so the merged authors list does contain case-insensitive
duplicates. -/
theorem claim_c8_counterexample :
    (mergeResultsAt [repC8, sibC8] 0).authors = ["Jane Doe", "JANE DOE"]
    ∧ ¬(((mergeResultsAt [repC8, sibC8] 0).authors.map pyLower).Nodup) := by
  decide

/-- Claim C8 as amended: during merge, authors lists are unioned with an
exact (case-sensitive) membership test: the merged list extends the
representative's list in order, an author appears in it exactly when it
appears in one of the two lists, and the union introduces no exact
duplicates when the representative's list had none (case-insensitive
duplicates are possible, as the counterexample shows). -/
theorem claim_c8_amended (xs ys : List String) (m r : UnifiedBookResult)
    (hnd : xs.Nodup) :
    (∃ ext, mergeAuthors xs ys = xs ++ ext)
    ∧ (∀ a, a ∈ mergeAuthors xs ys ↔ a ∈ xs ∨ a ∈ ys)
    ∧ (mergeAuthors xs ys).Nodup
    ∧ (mergeFields m r).authors = mergeAuthors m.authors r.authors := by
  exact ⟨mergeAuthors_append ys xs, fun a => mergeAuthors_mem ys xs a,
    mergeAuthors_nodup ys xs hnd, mergeFields_authors m r⟩

theorem claim_c8_amended_witness :
    (∃ ext, mergeAuthors ["Jane Doe"] ["JANE DOE"] = ["Jane Doe"] ++ ext)
    ∧ (∀ a, a ∈ mergeAuthors ["Jane Doe"] ["JANE DOE"]
        ↔ a ∈ ["Jane Doe"] ∨ a ∈ ["JANE DOE"])
    ∧ (mergeAuthors ["Jane Doe"] ["JANE DOE"]).Nodup
    ∧ (mergeFields repC8 sibC8).authors
        = mergeAuthors repC8.authors sibC8.authors :=
  claim_c8_amended ["Jane Doe"] ["JANE DOE"] repC8 sibC8 (by decide)

/-- Claim C5 counterexample: on the concrete input (two results of one
work plus one of another), the deduplicated output's scores are 68.5 and
75.5, while the first group's representative entered with score 62.5:
its score was changed by the backfill merge (62.5 to 68.5, the +6
description bonus), and the output is not sorted descending (68.5 comes
before 75.5) even though the pre-merge representative scores were 62.5
and 75.5. -/
theorem claim_c5_counterexample :
    (deduplicateResults [a1C5, b1C5, a2C5]).map UnifiedBookResult.score
      = [137/2, 151/2]
    ∧ a1C5.score = 125/2
    ∧ b1C5.score = 151/2
    ∧ ¬((137 : Rat)/2 = 125/2)
    ∧ ¬((151 : Rat)/2 ≤ 137/2) := by
  set_option maxRecDepth 4000 in decide

/-- Claim C5 as amended: the representative's quality score *is*
recomputed from the enriched fields after backfill — every result
returned by the deduplication satisfies `score =
quality score of its final fields` — and the strategy returns the groups
in first-occurrence order without sorting by pre-merge score (the
counterexample exhibits an out-of-order output). -/
theorem claim_c5_amended (results : List UnifiedBookResult)
    (r : UnifiedBookResult) (hr : r ∈ deduplicateResults results) :
    r.score = calculateQualityScore r := by
  unfold deduplicateResults at hr
  split at hr
  · next hempty =>
    rw [List.isEmpty_iff.mp hempty] at hr
    simp at hr
  · obtain ⟨g, hg, hgr⟩ := List.mem_map.mp hr
    rw [← hgr]
    exact mergeResultsAt_score_recomputed g.2 (maxIdxByScore g.2)

theorem claim_c5_amended_witness :
    (mergeResultsAt [a1C5] (maxIdxByScore [a1C5])).score
      = calculateQualityScore (mergeResultsAt [a1C5] (maxIdxByScore [a1C5])) :=
  claim_c5_amended [a1C5] (mergeResultsAt [a1C5] (maxIdxByScore [a1C5]))
    (by decide)

/-- Claim C9 counterexample: when the BnF adapter raises (and OpenLibrary
finds nothing), the BnF task's SourceMetric has status `"success"` with
zero results — not `"error"` as claimed — because the exception is
swallowed inside `_search_single_source` before the future completes; no
metric anywhere reads `"error"`. -/
theorem claim_c9_counterexample :
    (parallelSearchByIsbn 0 "123" svC9 []).2.1
      = [{ source := "BnF", status := "success", results_count := 0,
           error := "" },
         { source := "OpenLibrary", status := "success", results_count := 0,
           error := "" }]
    ∧ ((parallelSearchByIsbn 0 "123" svC9 []).2.1.map
        SourceMetric.status).contains "error" = false
    ∧ (parallelSearchByIsbn 0 "123" svC9 []).1 = [] := by
  decide

/-- Claim C9 as amended: an adapter exception is caught inside
`_search_single_source`, which returns an empty list, so the exception
never reaches the caller and the source contributes zero results; the
corresponding SourceMetric, however, records status `"success"` with
`results_count = 0` (the collector's error branch is unreachable for
adapter failures). -/
theorem claim_c9_amended (b : BnfBehaviour) (msg : String) (now : Rat)
    (isbn : String) (he : b.byIsbn = Except.error msg) :
    searchSingleSource (singleSourceIsbnBnf b) = []
    ∧ (parallelSearchByIsbn now isbn ⟨some b, none, none⟩ []).1 = []
    ∧ (parallelSearchByIsbn now isbn ⟨some b, none, none⟩ []).2.1
        = [{ source := "BnF", status := "success", results_count := 0,
             error := "" }]
    ∧ (parallelSearchByIsbn now isbn ⟨some b, none, none⟩ []).2.2.1 = [] := by
  have hb : singleSourceIsbnBnf b = ([], some msg) := by
    unfold singleSourceIsbnBnf
    rw [he]
  refine ⟨?_, ?_, ?_, ?_⟩ <;>
    simp [parallelSearchByIsbn, parallelDispatchIsbn, simpleCacheGet,
      lookupAssoc, parallelTasksIsbn, hb, searchSingleSource, collectSource,
      simpleCacheSet]

theorem claim_c9_amended_witness :
    searchSingleSource (singleSourceIsbnBnf bC9W) = []
    ∧ (parallelSearchByIsbn 0 "123" ⟨some bC9W, none, none⟩ []).1 = []
    ∧ (parallelSearchByIsbn 0 "123" ⟨some bC9W, none, none⟩ []).2.1
        = [{ source := "BnF", status := "success", results_count := 0,
             error := "" }]
    ∧ (parallelSearchByIsbn 0 "123" ⟨some bC9W, none, none⟩ []).2.2.1 = [] :=
  claim_c9_amended bC9W "boom" 0 "123" rfl

/-- Claim C3 counterexample: with every adapter returning nothing and
`use_cache=true`, the facade stores the empty result list in its own
dict cache, so `get_cache_stats()` *does* show a new entry for the key
(1 ISBN entry, not 0); only the strategy-level SimpleCache stays
empty. -/
theorem claim_c3_counterexample :
    (facadeParSearchByIsbn 0 "123" true svC3 {}).2.isbnCache = [("123", [])]
    ∧ getCacheStats (facadeParSearchByIsbn 0 "123" true svC3 {}).2 = (1, 0)
    ∧ ¬(getCacheStats (facadeParSearchByIsbn 0 "123" true svC3 {}).2 = (0, 0))
    ∧ (facadeParSearchByIsbn 0 "123" true svC3 {}).2.globalCache = [] := by
  decide

/-- Claim C3 as amended: when the strategy returns no results, the
strategy-level SimpleCache gains no entry (`set` is only invoked with
non-empty lists; the cache can only shrink by lazy eviction), but the
facade-level dict cache *does* store the empty list, so
`get_cache_stats()` grows by one entry for a fresh key. -/
theorem claim_c3_amended (now : Rat) (isbn : String) (sv : Services)
    (st : MetaFacadeState)
    (hv : (pyStrip isbn == "") = false)
    (hmiss : lookupAssoc st.isbnCache (cleanIsbn isbn) = none)
    (hempty :
      (parallelSearchByIsbn now (cleanIsbn isbn) sv st.globalCache).1 = []) :
    (facadeParSearchByIsbn now isbn true sv st).2.globalCache.length
      ≤ st.globalCache.length
    ∧ (facadeParSearchByIsbn now isbn true sv st).2.isbnCache
      = setAssoc st.isbnCache (cleanIsbn isbn) []
    ∧ (facadeParSearchByIsbn now isbn true sv st).2.isbnCache.length
      = st.isbnCache.length + 1 := by
  have hle := parallel_gc_length_le now (cleanIsbn isbn) sv st.globalCache
    hempty
  unfold facadeParSearchByIsbn
  rw [if_neg (by simp [hv])]
  dsimp only
  rw [if_pos rfl, hmiss]
  dsimp only
  rw [hempty]
  refine ⟨hle, ?_, ?_⟩
  · rfl
  · exact setAssoc_length_of_none st.isbnCache (cleanIsbn isbn) _ hmiss

theorem claim_c3_amended_witness :
    (facadeParSearchByIsbn 0 " 12-3" true svC3
      ⟨[], [], [], 0⟩).2.globalCache.length
      ≤ (⟨[], [], [], 0⟩ : MetaFacadeState).globalCache.length
    ∧ (facadeParSearchByIsbn 0 " 12-3" true svC3 ⟨[], [], [], 0⟩).2.isbnCache
      = setAssoc (⟨[], [], [], 0⟩ : MetaFacadeState).isbnCache
          (cleanIsbn " 12-3") []
    ∧ (facadeParSearchByIsbn 0 " 12-3" true svC3
        ⟨[], [], [], 0⟩).2.isbnCache.length
      = (⟨[], [], [], 0⟩ : MetaFacadeState).isbnCache.length + 1 :=
  claim_c3_amended 0 " 12-3" svC3 ⟨[], [], [], 0⟩ (by decide) (by decide)
    (by decide)

theorem parallel_dispatched_on_empty_gc (now : Rat) (isbn : String)
    (sv : Services) : (parallelSearchByIsbn now isbn sv []).2.2.2 = true := by
  simp [parallelSearchByIsbn, simpleCacheGet, lookupAssoc,
    parallelDispatchIsbn]

/-- A `search_by_isbn` call on a fresh facade: validation passes, both
caches miss, the strategy dispatches once, and the sorted results are
stored in the facade cache. -/
theorem facade_first_call (t1 : Rat) (isbn : String) (sv : Services)
    (hv : (pyStrip isbn == "") = false) :
    facadeParSearchByIsbn t1 isbn true sv ⟨[], [], [], 0⟩
      = (sortDesc (parallelSearchByIsbn t1 (cleanIsbn isbn) sv []).1,
         { isbnCache := setAssoc [] (cleanIsbn isbn)
             (sortDesc (parallelSearchByIsbn t1 (cleanIsbn isbn) sv []).1),
           titleCache := [],
           globalCache :=
             (parallelSearchByIsbn t1 (cleanIsbn isbn) sv []).2.2.1,
           dispatches := 1 }) := by
  unfold facadeParSearchByIsbn
  rw [if_neg (by simp [hv])]
  dsimp only
  rw [if_pos rfl]
  rw [show lookupAssoc ([] : List (String × List UnifiedBookResult))
    (cleanIsbn isbn) = none from rfl]
  dsimp only
  rw [parallel_dispatched_on_empty_gc]
  rfl

/-- A `search_by_isbn` call whose key is in the facade cache returns the
cached list and leaves the state untouched. -/
theorem facade_hit_call (t : Rat) (isbn : String) (sv : Services)
    (st : MetaFacadeState) (v : List UnifiedBookResult)
    (hv : (pyStrip isbn == "") = false)
    (hhit : lookupAssoc st.isbnCache (cleanIsbn isbn) = some v) :
    facadeParSearchByIsbn t isbn true sv st = (v, st) := by
  unfold facadeParSearchByIsbn
  rw [if_neg (by simp [hv])]
  dsimp only
  rw [if_pos rfl, hhit]

/-- Claim C6 counterexample: first call at t=0, second at t=1 (inside the
24 h TTL), third at t=25 (past the TTL).  The adapter dispatch count is 1
after all three calls: the third call does *not* issue adapter calls
again, because the facade-level dict cache it hits has no TTL. -/
theorem claim_c6_counterexample :
    stC6one.dispatches = 1 ∧ stC6two.dispatches = 1
    ∧ stC6three.dispatches = 1 ∧ ¬(2 ≤ stC6three.dispatches) := by
  decide

/-- Claim C6 as amended: with `use_cache=true` on a fresh service,
repeated `search_by_isbn(x)` dispatches to the adapters exactly once, no
matter how much time passes — the facade cache has no TTL, so the
post-TTL third call still returns the first call's list without adapter
calls; TTL-based lazy eviction exists only in the strategy-level
SimpleCache, whose `get` does evict an expired entry on access. -/
theorem claim_c6_amended (isbn : String) (sv : Services) (t1 t2 t3 : Rat)
    (hv : (pyStrip isbn == "") = false) :
    ((facadeParSearchByIsbn t3 isbn true sv
        (facadeParSearchByIsbn t2 isbn true sv
          (facadeParSearchByIsbn t1 isbn true sv
            ⟨[], [], [], 0⟩).2).2).2).dispatches = 1
    ∧ (facadeParSearchByIsbn t2 isbn true sv
        (facadeParSearchByIsbn t1 isbn true sv ⟨[], [], [], 0⟩).2).1
      = (facadeParSearchByIsbn t1 isbn true sv ⟨[], [], [], 0⟩).1
    ∧ (facadeParSearchByIsbn t3 isbn true sv
        (facadeParSearchByIsbn t2 isbn true sv
          (facadeParSearchByIsbn t1 isbn true sv ⟨[], [], [], 0⟩).2).2).1
      = (facadeParSearchByIsbn t1 isbn true sv ⟨[], [], [], 0⟩).1
    ∧ (∀ (c : List (String × CacheEntry)) (key : String) (e : CacheEntry)
        (now : Rat), lookupAssoc c key = some e →
        CacheEntry.isExpired now e = true →
        simpleCacheGet now c key
          = (none, c.filter (fun p => !(p.1 == key)))) := by
  have h1 := facade_first_call t1 isbn sv hv
  have hhit1 : lookupAssoc
      (facadeParSearchByIsbn t1 isbn true sv ⟨[], [], [], 0⟩).2.isbnCache
      (cleanIsbn isbn)
      = some (facadeParSearchByIsbn t1 isbn true sv ⟨[], [], [], 0⟩).1 := by
    rw [h1]
    exact lookupAssoc_setAssoc_self _ _ _
  have h2 := facade_hit_call t2 isbn sv
    (facadeParSearchByIsbn t1 isbn true sv ⟨[], [], [], 0⟩).2
    (facadeParSearchByIsbn t1 isbn true sv ⟨[], [], [], 0⟩).1 hv hhit1
  have hs2 : (facadeParSearchByIsbn t2 isbn true sv
      (facadeParSearchByIsbn t1 isbn true sv ⟨[], [], [], 0⟩).2).2
      = (facadeParSearchByIsbn t1 isbn true sv ⟨[], [], [], 0⟩).2 := by
    rw [h2]
  have h3 := facade_hit_call t3 isbn sv
    (facadeParSearchByIsbn t1 isbn true sv ⟨[], [], [], 0⟩).2
    (facadeParSearchByIsbn t1 isbn true sv ⟨[], [], [], 0⟩).1 hv hhit1
  refine ⟨?_, ?_, ?_, ?_⟩
  · rw [hs2, h3, h1]
  · rw [h2]
  · rw [hs2, h3]
  · intro c key e now hl he
    unfold simpleCacheGet
    rw [hl]
    dsimp only
    rw [if_pos he]

theorem claim_c6_amended_witness :
    ((facadeParSearchByIsbn 25 "123" true svC6
        (facadeParSearchByIsbn 1 "123" true svC6
          (facadeParSearchByIsbn 0 "123" true svC6
            ⟨[], [], [], 0⟩).2).2).2).dispatches = 1
    ∧ (facadeParSearchByIsbn 1 "123" true svC6
        (facadeParSearchByIsbn 0 "123" true svC6 ⟨[], [], [], 0⟩).2).1
      = (facadeParSearchByIsbn 0 "123" true svC6 ⟨[], [], [], 0⟩).1
    ∧ (facadeParSearchByIsbn 25 "123" true svC6
        (facadeParSearchByIsbn 1 "123" true svC6
          (facadeParSearchByIsbn 0 "123" true svC6 ⟨[], [], [], 0⟩).2).2).1
      = (facadeParSearchByIsbn 0 "123" true svC6 ⟨[], [], [], 0⟩).1
    ∧ (∀ (c : List (String × CacheEntry)) (key : String) (e : CacheEntry)
        (now : Rat), lookupAssoc c key = some e →
        CacheEntry.isExpired now e = true →
        simpleCacheGet now c key
          = (none, c.filter (fun p => !(p.1 == key)))) :=
  claim_c6_amended "123" svC6 0 1 25 (by decide)

/-- Claim C10: the Best-result strategy's merge mutates the results in
place and the parallel strategy has already cached references to those
same objects, so after a merging search the cached entry for the query
dereferences to the backfilled, rescored representative (`mergedC10`,
with `bC10`'s description and the recomputed score 68.5, not the
original `aC10`), and an identical second query is a cache hit returning
the references to the already-merged objects with no new allocation. -/
theorem claim_c10 :
    bestSearchByIsbnRefs 0 "123" [aC10, bC10] ⟨[], []⟩
      = ([0], ⟨[mergedC10, bC10], [("isbn:123", ⟨[0, 1], 0, 24⟩)]⟩)
    ∧ heapGet (bestSearchByIsbnRefs 0 "123" [aC10, bC10] ⟨[], []⟩).2.heap 0
        ≠ aC10
    ∧ parallelSearchRefs 0 "123" [aC10, bC10]
        (bestSearchByIsbnRefs 0 "123" [aC10, bC10] ⟨[], []⟩).2
      = ([0, 1], (bestSearchByIsbnRefs 0 "123" [aC10, bC10] ⟨[], []⟩).2) := by
  decide

/-- Claim C1: for every combination of adapter behaviours — raising,
returning `None`, returning an empty list, or returning records, encoded
in `Services` — and any facade state whose cached lists are sorted, both
facade operations return a (possibly empty) list of results sorted
descending by quality score, and preserve the sorted-cache invariant.
Totality of the embedding over all behaviours is the no-crash guarantee:
every raising path (`Except.error` values, `TypeError` on iterating
`None`) is caught by the strategy loop and never escapes the facade. -/
theorem claim_c1 (sv : Services) (st : SeqFacadeState)
    (isbn title author : String) (useCache : Bool)
    (hst : SortedCaches st) :
    (SortedD (facadeSeqSearchByIsbn isbn useCache sv st).1
      ∧ SortedCaches (facadeSeqSearchByIsbn isbn useCache sv st).2)
    ∧ SortedD (facadeSeqSearchByTitleAuthor title author useCache sv st).1
      ∧ SortedCaches
          (facadeSeqSearchByTitleAuthor title author useCache sv st).2 := by
  constructor
  · unfold facadeSeqSearchByIsbn
    split
    · exact ⟨List.Pairwise.nil, hst⟩
    · dsimp only
      split
      · next rs hhit =>
        refine ⟨?_, hst⟩
        by_cases hu : useCache
        · rw [if_pos hu] at hhit
          obtain ⟨k2, hk⟩ := lookupAssoc_mem _ _ _ hhit
          exact hst.1 (k2, rs) hk
        · rw [if_neg hu] at hhit
          cases hhit
      · refine ⟨sortedD_sortDesc _, ?_⟩
        split
        · refine ⟨?_, hst.2⟩
          intro p hp
          rcases setAssoc_mem _ _ _ p hp with h | h
          · exact hst.1 p h
          · rw [h]
            exact sortedD_sortDesc _
        · exact hst
  · unfold facadeSeqSearchByTitleAuthor
    split
    · exact ⟨List.Pairwise.nil, hst⟩
    · dsimp only
      split
      · next rs hhit =>
        refine ⟨?_, hst⟩
        by_cases hu : useCache
        · rw [if_pos hu] at hhit
          obtain ⟨k2, hk⟩ := lookupAssoc_mem _ _ _ hhit
          exact hst.2 (k2, rs) hk
        · rw [if_neg hu] at hhit
          cases hhit
      · refine ⟨sortedD_sortDesc _, ?_⟩
        split
        · refine ⟨hst.1, ?_⟩
          intro p hp
          rcases setAssoc_mem _ _ _ p hp with h | h
          · exact hst.2 p h
          · rw [h]
            exact sortedD_sortDesc _
        · exact hst

theorem claim_c1_witness :
    (SortedD (facadeSeqSearchByIsbn "9780441172719" true svC1W ⟨[], []⟩).1
      ∧ SortedCaches
          (facadeSeqSearchByIsbn "9780441172719" true svC1W ⟨[], []⟩).2)
    ∧ SortedD
        (facadeSeqSearchByTitleAuthor "Dune" "Herbert" true svC1W
          ⟨[], []⟩).1
      ∧ SortedCaches
          (facadeSeqSearchByTitleAuthor "Dune" "Herbert" true svC1W
            ⟨[], []⟩).2 :=
  claim_c1 svC1W ⟨[], []⟩ "9780441172719" "Dune" "Herbert" true
    ⟨fun p hp => absurd hp (List.not_mem_nil p),
     fun p hp => absurd hp (List.not_mem_nil p)⟩

end

end Aurora
